import Mathlib

/-!
The note editor client of `frontend/src/App.jsx`.

A shallow embedding of the React component `App`: its seven `useState` cells, the five
handlers `fetchNotes`, `loadNote`, `saveNote`, `newNote`, `deleteNote`, and the `disabled`
expressions of the Save and Delete buttons.

Modelling decisions.

* The component state is one record `Client`; a `setX(v)` call overwrites one field.  Every
  setter in the source is called with a value (never with an updater function), so the state
  after a handler is the result of applying its setter calls in program order.
* A handler is a computation `Op α` over a `World` (the component state together with the log
  of HTTP requests issued so far) that either returns or throws a JavaScript exception.
  `try / catch / finally` of the source are the `try / catch / finally` of `Op`.
* `axios.get/post/put/delete` append the request, with the answer the service gives to it, to
  the log and return a `Promise`; `await` returns what the promise resolves to, or throws when
  it rejects.  The answers of the REST service are a parameter (`Backend`), one answer per URL
  (and payload).  A 2xx answer to a GET carries data of the shape of section 6 of the
  specification: a list of notes for the collection, a note for one id.
* A promise that is never awaited still has its request and outcome in the log, but its
  outcome has no effect on the handler that created it.
* The values `title`, `content`, `tags`, `selectedId` that a handler reads are those of the
  render that created it; they are read from the state on entry (`closure`).
* An id is a JavaScript value the client never inspects: `null`, `undefined`, a number or a
  string, with the JavaScript notions of truthiness (`!id`) and of string conversion inside a
  template literal.  A number is represented by the text the built-in number-to-string
  conversion gives for it, so that integers, fractions, exponent forms (`1e+21`), `Infinity`
  and `NaN` are all covered and the URL built from a numeric id is the one the code builds.
-/

namespace AiNotes

/-! ## JavaScript values used by the component -/

/-- An identifier as JavaScript sees it.  A number is given by `text`, the result of the
built-in conversion of that number to a string: `7` is `num "7"`, `1.5` is `num "1.5"`, ten to
the power 21 is `num "1e+21"`, both zeros are `num "0"` and not-a-number is `num "NaN"`. -/
inductive JsId where
  | null
  | undefined
  | num (text : String)
  | str (s : String)
deriving DecidableEq

/-- JavaScript truthiness: `!id` is `true` exactly when `truthy id` is `false`.  The falsy
numbers are the two zeros and not-a-number, the numbers whose text is `0` or `NaN`; the only
falsy string is the empty one. -/
def JsId.truthy : JsId → Bool
  | .null => false
  | .undefined => false
  | .num text => text != "0" && text != "NaN"
  | .str s => s != ""

/-- String conversion performed by a template literal. -/
def JsId.toStr : JsId → String
  | .null => "null"
  | .undefined => "undefined"
  | .num text => text
  | .str s => s

/-- The `tags` property of a note as the service may send it. -/
inductive TagsField where
  | absent
  | text (s : String)
  | seq (l : List String)
deriving DecidableEq

/-- A note as returned by the service; `title` and `content` may be missing. -/
structure Note where
  id : JsId
  title : Option String
  content : Option String
  tags : TagsField
  updated_at : Option String
deriving DecidableEq

/-- The request body `{ title, content, tags }`. -/
structure Payload where
  title : String
  content : String
  tags : String
deriving DecidableEq

inductive Method where
  | GET
  | POST
  | PUT
  | DELETE
deriving DecidableEq

/-- One HTTP request as handed to axios. -/
structure Request where
  method : Method
  url : String
  body : Option Payload
deriving DecidableEq

def getReq (url : String) : Request := { method := .GET, url := url, body := none }

def postReq (url : String) (p : Payload) : Request :=
  { method := .POST, url := url, body := some p }

def putReq (url : String) (p : Payload) : Request :=
  { method := .PUT, url := url, body := some p }

def deleteReq (url : String) : Request := { method := .DELETE, url := url, body := none }

/-- A request together with its outcome: `ok` is `true` for a 2xx answer, `false` for a
transport failure or any other status. -/
structure Exchange where
  request : Request
  ok : Bool
deriving DecidableEq

/-- A request that writes a note: the create `POST` or the update `PUT`. -/
def Exchange.isWrite (e : Exchange) : Bool :=
  e.request.method == .POST || e.request.method == .PUT

/-- The seven `useState` cells of `App`. -/
structure Client where
  title : String
  content : String
  tags : String
  notes : List Note
  saving : Bool
  error : String
  selectedId : JsId
deriving DecidableEq

/-- The state of the first render: the initial values passed to `useState`. -/
def Client.initial : Client :=
  { title := "", content := "", tags := "", notes := [], saving := false, error := "",
    selectedId := .null }

/-- What the note service answers; `none` (or `false`) is a transport failure or a non-2xx
status, which makes the axios promise reject. -/
structure Backend where
  getList : String → Option (List Note)
  getNote : String → Option Note
  post : String → Payload → Option Note
  put : String → Payload → Option Note
  delete : String → Bool

/-! ## Computations that may throw -/

inductive JsError where
  | network
  | typeError
deriving DecidableEq

/-- Component state and the requests issued so far, oldest first. -/
structure World where
  ui : Client
  log : List Exchange
deriving DecidableEq

/-- A handler body: runs on a world, ends normally or with an exception. -/
def Op (α : Type) : Type := World → Except JsError α × World

namespace Op

def pure {α : Type} (a : α) : Op α := fun w => (.ok a, w)

def bind {α β : Type} (x : Op α) (f : α → Op β) : Op β := fun w =>
  match x w with
  | (.ok a, w1) => f a w1
  | (.error e, w1) => (.error e, w1)

def throw {α : Type} (e : JsError) : Op α := fun w => (.error e, w)

def tryCatch {α : Type} (x : Op α) (handler : JsError → Op α) : Op α := fun w =>
  match x w with
  | (.ok a, w1) => (.ok a, w1)
  | (.error e, w1) => handler e w1

/-- The body runs, then the finalizer runs whatever the body did; an exception of the body is
rethrown after the finalizer unless the finalizer throws itself. -/
def tryFinally {α β : Type} (x : Op α) (fin : Option α → Op β) : Op (α × β) := fun w =>
  match x w with
  | (.ok a, w1) =>
    match fin (some a) w1 with
    | (.ok b, w2) => (.ok (a, b), w2)
    | (.error e, w2) => (.error e, w2)
  | (.error e, w1) =>
    match fin none w1 with
    | (.ok _, w2) => (.error e, w2)
    | (.error e2, w2) => (.error e2, w2)

end Op

instance : Monad Op where
  pure := Op.pure
  bind := Op.bind

instance : MonadExcept JsError Op where
  throw := Op.throw
  tryCatch := Op.tryCatch

instance : MonadFinally Op where
  tryFinally' := Op.tryFinally

/-- Runs a handler from a component state with an empty request log. -/
def Op.exec {α : Type} (x : Op α) (c : Client) : Except JsError α × World :=
  x { ui := c, log := [] }

/-- The component state when the handler has finished. -/
def Op.final {α : Type} (x : Op α) (c : Client) : Client := (x.exec c).2.ui

/-- The requests the handler issued, in order, each with its outcome. -/
def Op.trace {α : Type} (x : Op α) (c : Client) : List Exchange := (x.exec c).2.log

/-- The requests the handler issued, in order. -/
def Op.requests {α : Type} (x : Op α) (c : Client) : List Request :=
  (x.trace c).map Exchange.request

/-- The handler finished without an exception escaping it. -/
def Op.returns {α : Type} (x : Op α) (c : Client) : Bool :=
  match (x.exec c).1 with
  | .ok _ => true
  | .error _ => false

/-! ## React state cells -/

/-- The values captured by the handler: the current render. -/
def closure : Op Client := fun w => (.ok w.ui, w)

def setTitle (v : String) : Op Unit := fun w => (.ok (), { w with ui := { w.ui with title := v } })

def setContent (v : String) : Op Unit :=
  fun w => (.ok (), { w with ui := { w.ui with content := v } })

def setTags (v : String) : Op Unit := fun w => (.ok (), { w with ui := { w.ui with tags := v } })

def setNotes (v : List Note) : Op Unit :=
  fun w => (.ok (), { w with ui := { w.ui with notes := v } })

def setSaving (v : Bool) : Op Unit := fun w => (.ok (), { w with ui := { w.ui with saving := v } })

def setError (v : String) : Op Unit := fun w => (.ok (), { w with ui := { w.ui with error := v } })

def setSelectedId (v : JsId) : Op Unit :=
  fun w => (.ok (), { w with ui := { w.ui with selectedId := v } })

/-! ## axios -/

/-- A promise, already carrying how it will settle. -/
structure Promise (α : Type) where
  settled : Except JsError α

/-- The operator `await p`: the value the promise resolves to, or its rejection thrown. -/
def await {α : Type} (p : Promise α) : Op α := fun w => (p.settled, w)

/-- The axios response object; only `data` is read by the component. -/
structure Response (α : Type) where
  data : α

/-- Appends a request and its outcome to the log. -/
def issue (r : Request) (ok : Bool) : Op Unit :=
  fun w => (.ok (), { w with log := w.log ++ [{ request := r, ok := ok }] })

/-- The promise axios returns: resolved with the response data, or rejected. -/
def settle {α : Type} : Option α → Promise (Response α)
  | some d => { settled := .ok { data := d } }
  | none => { settled := .error .network }

def axiosGetList (b : Backend) (url : String) : Op (Promise (Response (List Note))) := do
  issue (getReq url) (b.getList url).isSome
  return settle (b.getList url)

def axiosGetNote (b : Backend) (url : String) : Op (Promise (Response Note)) := do
  issue (getReq url) (b.getNote url).isSome
  return settle (b.getNote url)

def axiosPost (b : Backend) (url : String) (payload : Payload) :
    Op (Promise (Response Note)) := do
  issue (postReq url payload) (b.post url payload).isSome
  return settle (b.post url payload)

def axiosPut (b : Backend) (url : String) (payload : Payload) :
    Op (Promise (Response Note)) := do
  issue (putReq url payload) (b.put url payload).isSome
  return settle (b.put url payload)

def axiosDelete (b : Backend) (url : String) : Op (Promise (Response Unit)) := do
  issue (deleteReq url) (b.delete url)
  return settle (if b.delete url then some () else none)

/-- The property read `p.data` on a promise object itself (not on what it resolves to): a
promise has no `data` property, so the read gives `undefined`, here `none`. -/
def Promise.data {α : Type} (_p : Promise (Response α)) : Option α := none

/-- The property read `x.id`: a `TypeError` when `x` is `undefined`. -/
def readId : Option Note → Op JsId
  | some n => Op.pure n.id
  | none => Op.throw .typeError

/-! ## Strings -/

def API : String := "http://127.0.0.1:8000"

/-- The template literal for the collection: API followed by `/notes`. -/
def notesUrl : String := API ++ "/notes"

/-- The template literal for one note: API, `/notes/` and the id converted to a string. -/
def noteUrl (id : JsId) : String := API ++ "/notes/" ++ id.toStr

/-- The loop of `Array.prototype.join`: the separator goes before every element but the
first. -/
def joinLoop (sep : String) : Bool → String → List String → String
  | _, r, [] => r
  | first, r, x :: xs => joinLoop sep false ((if first then r else r ++ sep) ++ x) xs

/-- The method `Array.prototype.join` on an array of strings. -/
def arrayJoin (t : List String) (sep : String) : String := joinLoop sep true "" t

/-- White space and line terminators of ECMAScript, the characters `trim` removes. -/
def isJsWhiteSpace (c : Char) : Bool :=
  let n := c.toNat
  n == 0x09 || n == 0x0A || n == 0x0B || n == 0x0C || n == 0x0D || n == 0x20 || n == 0xA0 ||
  n == 0x1680 || (0x2000 ≤ n && n ≤ 0x200A) || n == 0x2028 || n == 0x2029 || n == 0x202F ||
  n == 0x205F || n == 0x3000 || n == 0xFEFF

/-- The method `String.prototype.trim`: white space removed from both ends. -/
def jsTrim (s : String) : String :=
  ⟨((s.data.dropWhile isJsWhiteSpace).reverse.dropWhile isJsWhiteSpace).reverse⟩

/-- Truthiness of a string: `!s` is `true` exactly for the empty string. -/
def strTruthy (s : String) : Bool := s != ""

/-! ## The handlers -/

def fetchErrorText : String := "Could not load notes. Is the backend running on :8000?"
def loadErrorText : String := "Could not load that note."
def saveErrorText : String := "Could not save note. Check backend logs / CORS."
def deleteErrorText : String := "Could not delete note."

def fetchNotes (b : Backend) : Op Unit := do
  setError ""
  try
    let res ← await (← axiosGetList b notesUrl)
    setNotes res.data
  catch _ =>
    setError fetchErrorText

/-- The expression `Array.isArray(t) ? t.join(", ") : (t ?? "")`. -/
def tagsText : TagsField → String
  | .seq l => arrayJoin l ", "
  | .text s => s
  | .absent => ""

def loadNote (b : Backend) (id : JsId) : Op Unit := do
  setError ""
  try
    let res ← await (← axiosGetNote b (noteUrl id))
    let note := res.data
    setTitle (note.title.getD "")
    setContent (note.content.getD "")
    let t := note.tags
    setTags (tagsText t)
    setSelectedId note.id
  catch _ =>
    setError loadErrorText

/-- The object literal `{ title, content, tags }` built from the captured state. -/
def draft (c : Client) : Payload := { title := c.title, content := c.content, tags := c.tags }

def saveNote (b : Backend) : Op Unit := do
  let c ← closure
  setError ""
  setSaving true
  try
    let payload := draft c
    if !c.selectedId.truthy then
      let res ← axiosPut b (noteUrl c.selectedId) payload
      setSelectedId (← readId res.data)
    else
      let _ ← await (← axiosPost b notesUrl payload)
    fetchNotes b
  catch _ =>
    setError saveErrorText
  finally
    setSaving false

def newNote : Op Unit := do
  setError ""
  setTitle ""
  setContent ""
  setTags ""
  setSelectedId .null

def deleteNote (b : Backend) (id : JsId) : Op Unit := do
  setError ""
  if !id.truthy then return
  try
    let _ ← await (← axiosDelete b (noteUrl id))
    fetchNotes b
    newNote
  catch _ =>
    setError deleteErrorText

/-- The `disabled` expression of the Save button. -/
def saveDisabled (c : Client) : Bool :=
  c.saving || (!strTruthy (jsTrim c.title) && !strTruthy (jsTrim c.content))

/-- The `disabled` expression of the Delete button. -/
def deleteDisabled (c : Client) : Bool := !c.selectedId.truthy || c.saving

/-! ## Concrete services and states used in the examples -/

/-- A service that cannot be reached: every request fails. -/
def Backend.offline : Backend :=
  { getList := fun _ => none, getNote := fun _ => none, post := fun _ _ => none,
    put := fun _ _ => none, delete := fun _ => false }

/-- The note the accepting service returns for every write. -/
def persisted : Note :=
  { id := .num "7", title := some "T", content := some "", tags := .seq [], updated_at := none }

/-- A service that accepts every request and answers every write with `persisted`. -/
def Backend.accepting : Backend :=
  { getList := fun _ => some [persisted], getNote := fun _ => some persisted,
    post := fun _ _ => some persisted, put := fun _ _ => some persisted,
    delete := fun _ => true }

/-- A service that accepts writes and deletions but fails every GET. -/
def Backend.writeOnly : Backend :=
  { getList := fun _ => none, getNote := fun _ => none, post := fun _ _ => some persisted,
    put := fun _ _ => some persisted, delete := fun _ => true }

/-- A service whose note 1 carries the tags `["a","b"]`. -/
def Backend.tagged : Backend :=
  { Backend.accepting with
    getNote := fun _ =>
      some ⟨.num "1", some "A", none, .seq ["a", "b"], none⟩ }

/-- A fresh draft with title `T` and nothing selected. -/
def draftT : Client := { Client.initial with title := "T" }

/-- Note 5 selected and being edited. -/
def editing5 : Client := { Client.initial with title := "T", selectedId := .num "5" }

/-- A note whose id is the number zero, selected and being edited. -/
def editing0 : Client := { Client.initial with title := "T", selectedId := .num "0" }

/-- A state still showing the message of an earlier failure. -/
def staleError : Client := { Client.initial with error := loadErrorText }

/-! ## Identifiers and URLs -/

/-- The ids that pass `if (!id) return`: the numbers other than zero and not-a-number, and the
strings other than the empty one. -/
theorem JsId.truthy_iff (id : JsId) :
    id.truthy = true ↔
      ∃ text, (id = .num text ∧ text ≠ "0" ∧ text ≠ "NaN") ∨ (id = .str text ∧ text ≠ "") := by
  cases id with
  | null => simp [JsId.truthy]
  | undefined => simp [JsId.truthy]
  | num t => simp [JsId.truthy]
  | str t => simp [JsId.truthy]

theorem notesUrl_eq : notesUrl = "http://127.0.0.1:8000/notes" := by
  decide

theorem noteUrl_num (text : String) :
    noteUrl (.num text) = "http://127.0.0.1:8000/notes/" ++ text := by
  have h : API ++ "/notes/" = "http://127.0.0.1:8000/notes/" := by decide
  simp [noteUrl, JsId.toStr, h]

theorem noteUrl_str (text : String) :
    noteUrl (.str text) = "http://127.0.0.1:8000/notes/" ++ text := by
  have h : API ++ "/notes/" = "http://127.0.0.1:8000/notes/" := by decide
  simp [noteUrl, JsId.toStr, h]

/-! ## Closed forms of the handlers -/

theorem fetchNotes_apply (b : Backend) (w : World) :
    fetchNotes b w =
      match b.getList notesUrl with
      | some l => (.ok (), ⟨{ w.ui with error := "", notes := l },
          w.log ++ [⟨getReq notesUrl, true⟩]⟩)
      | none => (.ok (), ⟨{ w.ui with error := fetchErrorText },
          w.log ++ [⟨getReq notesUrl, false⟩]⟩) := by
  cases h : b.getList notesUrl <;>
    simp [fetchNotes, bind, Op.bind, tryCatch, tryCatchThe, MonadExcept.tryCatch, Op.tryCatch,
      setError, axiosGetList, issue, await, settle, pure, Op.pure, setNotes, h]

theorem loadNote_apply (b : Backend) (id : JsId) (w : World) :
    loadNote b id w =
      match b.getNote (noteUrl id) with
      | some n => (.ok (), ⟨{ w.ui with
                                error := "", title := n.title.getD "",
                                content := n.content.getD "", tags := tagsText n.tags,
                                selectedId := n.id },
          w.log ++ [⟨getReq (noteUrl id), true⟩]⟩)
      | none => (.ok (), ⟨{ w.ui with error := loadErrorText },
          w.log ++ [⟨getReq (noteUrl id), false⟩]⟩) := by
  cases h : b.getNote (noteUrl id) <;>
    simp [loadNote, bind, Op.bind, tryCatch, tryCatchThe, MonadExcept.tryCatch, Op.tryCatch,
      setError, axiosGetNote, issue, await, settle, pure, Op.pure, setTitle, setContent, setTags,
      setSelectedId, h]

theorem newNote_apply (w : World) :
    newNote w = (.ok (), ⟨{ w.ui with
                            error := "", title := "", content := "", tags := "",
                            selectedId := .null }, w.log⟩) := by
  simp [newNote, bind, Op.bind, setError, setTitle, setContent, setTags, setSelectedId]

theorem saveNote_apply_falsy (b : Backend) (w : World) (h : w.ui.selectedId.truthy = false) :
    saveNote b w = (.ok (), ⟨{ w.ui with error := saveErrorText, saving := false },
      w.log ++ [⟨putReq (noteUrl w.ui.selectedId) (draft w.ui),
                 (b.put (noteUrl w.ui.selectedId) (draft w.ui)).isSome⟩]⟩) := by
  simp [saveNote, bind, Op.bind, tryCatch, tryCatchThe, MonadExcept.tryCatch, Op.tryCatch,
    setError, axiosPut, issue, pure, Op.pure, h, closure, setSaving, tryFinally,
    MonadFinally.tryFinally', Op.tryFinally, Functor.map, readId, Promise.data, Op.throw, draft]

theorem saveNote_apply_truthy (b : Backend) (w : World) (h : w.ui.selectedId.truthy = true) :
    saveNote b w =
      match b.post notesUrl (draft w.ui) with
      | some _ =>
        match b.getList notesUrl with
        | some l => (.ok (), ⟨{ w.ui with error := "", saving := false, notes := l },
            w.log ++ [⟨postReq notesUrl (draft w.ui), true⟩, ⟨getReq notesUrl, true⟩]⟩)
        | none => (.ok (), ⟨{ w.ui with error := fetchErrorText, saving := false },
            w.log ++ [⟨postReq notesUrl (draft w.ui), true⟩, ⟨getReq notesUrl, false⟩]⟩)
      | none => (.ok (), ⟨{ w.ui with error := saveErrorText, saving := false },
          w.log ++ [⟨postReq notesUrl (draft w.ui), false⟩]⟩) := by
  cases h1 : b.post notesUrl (draft w.ui) <;> cases h2 : b.getList notesUrl <;>
    simp [saveNote, bind, Op.bind, tryCatch, tryCatchThe, MonadExcept.tryCatch, Op.tryCatch,
      setError, axiosPost, issue, await, settle, pure, Op.pure, h, closure, setSaving,
      tryFinally, MonadFinally.tryFinally', Op.tryFinally, Functor.map, fetchNotes_apply, h1, h2]

theorem deleteNote_apply_falsy (b : Backend) (id : JsId) (w : World)
    (h : id.truthy = false) :
    deleteNote b id w = (.ok (), ⟨{ w.ui with error := "" }, w.log⟩) := by
  simp [deleteNote, bind, Op.bind, setError, pure, Op.pure, h]

theorem deleteNote_apply_truthy (b : Backend) (id : JsId) (w : World)
    (h : id.truthy = true) :
    deleteNote b id w =
      match b.delete (noteUrl id) with
      | true =>
        match b.getList notesUrl with
        | some l => (.ok (), ⟨{ w.ui with
                                  error := "", title := "", content := "", tags := "",
                                  selectedId := .null, notes := l },
            w.log ++ [⟨deleteReq (noteUrl id), true⟩, ⟨getReq notesUrl, true⟩]⟩)
        | none => (.ok (), ⟨{ w.ui with
                                error := "", title := "", content := "", tags := "",
                                selectedId := .null },
            w.log ++ [⟨deleteReq (noteUrl id), true⟩, ⟨getReq notesUrl, false⟩]⟩)
      | false => (.ok (), ⟨{ w.ui with error := deleteErrorText },
          w.log ++ [⟨deleteReq (noteUrl id), false⟩]⟩) := by
  cases h1 : b.delete (noteUrl id) <;> cases h2 : b.getList notesUrl <;>
    simp [deleteNote, bind, Op.bind, tryCatch, tryCatchThe, MonadExcept.tryCatch, Op.tryCatch,
      setError, axiosDelete, issue, await, settle, pure, Op.pure, h, fetchNotes_apply,
      newNote_apply, h1, h2]

/-! ## Strings -/

theorem joinLoop_eq_go (sep : String) (xs : List String) (r : String) :
    joinLoop sep false r xs = String.intercalate.go r sep xs := by
  induction xs generalizing r with
  | nil => rfl
  | cons x xs ih => simp [joinLoop, String.intercalate.go, ih]

/-- The join loop of the source computes the separator-interspersed concatenation. -/
theorem arrayJoin_eq_intercalate (t : List String) (sep : String) :
    arrayJoin t sep = sep.intercalate t := by
  cases t with
  | nil => rfl
  | cons x xs => simp [arrayJoin, joinLoop, String.intercalate, joinLoop_eq_go]

theorem dropWhile_eq_nil_of_trimmed_nil (p : Char → Bool) (l : List Char)
    (h : (l.dropWhile p).reverse.dropWhile p = []) : l.dropWhile p = [] := by
  cases hd : l.dropWhile p with
  | nil => rfl
  | cons a as =>
    exfalso
    have ha : p a = false := by
      have := List.head_dropWhile_not p l (by simp [hd])
      simpa [hd] using this
    rw [hd, List.dropWhile_eq_nil_iff] at h
    have := h a (by simp)
    simp [ha] at this

/-- Trimming leaves nothing exactly when every character is white space. -/
theorem jsTrim_eq_empty_iff (s : String) :
    jsTrim s = "" ↔ ∀ ch ∈ s.data, isJsWhiteSpace ch = true := by
  have key : jsTrim s = "" ↔ (s.data.dropWhile isJsWhiteSpace).reverse.dropWhile isJsWhiteSpace = [] := by
    unfold jsTrim
    constructor
    · intro h
      have := congrArg String.data h
      simpa using this
    · intro h
      simp [h]
  rw [key]
  constructor
  · intro h
    exact List.dropWhile_eq_nil_iff.mp (dropWhile_eq_nil_of_trimmed_nil _ _ h)
  · intro h
    have : s.data.dropWhile isJsWhiteSpace = [] := List.dropWhile_eq_nil_iff.mpr h
    simp [this]


/-! ## The create-or-update decision of `saveNote` -/

/-- C1 (defect of the code): with no note selected (`selectedId` is `null`), saveNote sends
exactly one request, the update `PUT /notes/null` carrying the draft, and no create
`POST /notes`, whatever the service answers. -/
theorem saveNote_unselected_requests (b : Backend) (c : Client) :
    (saveNote b).requests { c with selectedId := .null } =
      [putReq "http://127.0.0.1:8000/notes/null" ⟨c.title, c.content, c.tags⟩] := by
  have h := saveNote_apply_falsy b ⟨{ c with selectedId := .null }, []⟩ rfl
  simp only [Op.requests, Op.trace, Op.exec, h]
  rfl

/-- C2 (defect of the code): with a note selected (an id that passes the test `!selectedId`),
saveNote sends the create `POST /notes` carrying the draft, followed by the list refresh when
the create is accepted, and never an update `PUT /notes/id`. -/
theorem saveNote_selected_requests (b : Backend) (c : Client) (id : JsId)
    (h : id.truthy = true) :
    (saveNote b).requests { c with selectedId := id } =
      postReq "http://127.0.0.1:8000/notes" ⟨c.title, c.content, c.tags⟩ ::
        (if (b.post notesUrl ⟨c.title, c.content, c.tags⟩).isSome then [getReq notesUrl]
         else []) := by
  have hs := saveNote_apply_truthy b ⟨{ c with selectedId := id }, []⟩ h
  simp only [Op.requests, Op.trace, Op.exec, hs, draft]
  cases hp : b.post notesUrl ⟨c.title, c.content, c.tags⟩ with
  | none => rfl
  | some n => cases hl : b.getList notesUrl <;> rfl

theorem saveNote_selected_requests_witness :
    (JsId.num "5").truthy = true ∧
    (saveNote Backend.accepting).requests editing5 =
      [postReq "http://127.0.0.1:8000/notes" ⟨"T", "", ""⟩,
       getReq "http://127.0.0.1:8000/notes"] :=
  ⟨rfl, saveNote_selected_requests Backend.accepting editing5 (.num "5") rfl⟩

/-! ## Loading a note -/

/-- C3: after a successful loadNote whose fetched note has tags `t`, the tags text of the
editor is the elements of `t` joined with a comma and a space when `t` is a sequence of
strings, and `t` itself when `t` is a single string. -/
theorem loadNote_tags_text (b : Backend) (c : Client) (id : JsId) (note : Note)
    (h : b.getNote (noteUrl id) = some note) :
    (∀ l, note.tags = .seq l → ((loadNote b id).final c).tags = ", ".intercalate l) ∧
    (∀ s, note.tags = .text s → ((loadNote b id).final c).tags = s) := by
  have hl := loadNote_apply b id ⟨c, []⟩
  simp only [h] at hl
  constructor
  · intro l ht
    simp [Op.final, Op.exec, hl, ht, tagsText, arrayJoin_eq_intercalate]
  · intro s ht
    simp [Op.final, Op.exec, hl, ht, tagsText]

theorem loadNote_tags_text_witness :
    Backend.tagged.getNote (noteUrl (.num "1")) =
      some ⟨.num "1", some "A", none, .seq ["a", "b"], none⟩ ∧
    ((loadNote Backend.tagged (.num "1")).final Client.initial).tags = "a, b" :=
  ⟨rfl, (loadNote_tags_text Backend.tagged Client.initial (.num "1")
    ⟨.num "1", some "A", none, .seq ["a", "b"], none⟩ rfl).1 ["a", "b"] rfl⟩

/-! ## Deleting with an absent id -/

/-- C4, as stated, fails: called with `null` while an error message is showing, deleteNote
clears the message, so the state after the call differs from the state before it. -/
theorem deleteNote_absent_clears_error :
    (deleteNote Backend.offline .null).final staleError = { staleError with error := "" } ∧
    (deleteNote Backend.offline .null).final staleError ≠ staleError := by
  decide

/-- C4, amended: for every state, deleteNote called with `null` or `undefined` returns without
issuing a request; the error message becomes empty and every other field (notes, title,
content, tags, selection, saving flag) keeps its value. -/
theorem deleteNote_absent_frame (b : Backend) (c : Client) (id : JsId)
    (h : id = .null ∨ id = .undefined) :
    (deleteNote b id).returns c = true ∧ (deleteNote b id).trace c = [] ∧
    (deleteNote b id).final c = { c with error := "" } := by
  have ht : id.truthy = false := by
    rcases h with h | h <;> subst h <;> rfl
  simp [Op.returns, Op.trace, Op.final, Op.exec, deleteNote_apply_falsy b id ⟨c, []⟩ ht]

theorem deleteNote_absent_frame_witness :
    (JsId.undefined = .null ∨ JsId.undefined = .undefined) ∧
    (deleteNote Backend.accepting .undefined).returns staleError = true ∧
    (deleteNote Backend.accepting .undefined).trace staleError = [] ∧
    (deleteNote Backend.accepting .undefined).final staleError = { staleError with error := "" } :=
  ⟨Or.inr rfl, deleteNote_absent_frame Backend.accepting staleError .undefined (Or.inr rfl)⟩

/-! ## The Save button -/

/-- C5: the Save button is disabled exactly when a save is in flight or both the title and the
content are empty after trimming; with no save in flight and a title or a content that is not
blank, it is enabled. -/
theorem saveDisabled_iff (c : Client) :
    (saveDisabled c = true ↔
      (c.saving = true ∨ (jsTrim c.title = "" ∧ jsTrim c.content = ""))) ∧
    (c.saving = false → (jsTrim c.title ≠ "" ∨ jsTrim c.content ≠ "") →
      saveDisabled c = false) := by
  have key : saveDisabled c = true ↔
      (c.saving = true ∨ (jsTrim c.title = "" ∧ jsTrim c.content = "")) := by
    simp [saveDisabled, strTruthy]
  refine ⟨key, ?_⟩
  intro hs hne
  cases hd : saveDisabled c with
  | false => rfl
  | true =>
    exfalso
    rcases key.mp hd with h | ⟨h1, h2⟩
    · simp [hs] at h
    · rcases hne with h | h
      · exact h h1
      · exact h h2

theorem saveDisabled_iff_witness :
    editing5.saving = false ∧ (jsTrim editing5.title ≠ "" ∨ jsTrim editing5.content ≠ "") ∧
    saveDisabled editing5 = false :=
  ⟨rfl, Or.inl (by decide),
    (saveDisabled_iff editing5).2 rfl (Or.inl (by decide))⟩

/-- The Save button in terms of characters: it is disabled exactly when a save is in flight or
the title and the content consist of white space only. -/
theorem saveDisabled_iff_blank (c : Client) :
    saveDisabled c = true ↔
      (c.saving = true ∨ ((∀ ch ∈ c.title.data, isJsWhiteSpace ch = true) ∧
        (∀ ch ∈ c.content.data, isJsWhiteSpace ch = true))) := by
  rw [← jsTrim_eq_empty_iff, ← jsTrim_eq_empty_iff]
  simp [saveDisabled, strTruthy]

/-! ## Saving -/

/-- C6 (defect of the code): nothing is selected, the draft has title `T`, and the service
accepts every write and answers it with note 7.  saveNote sends `PUT /notes/null` alone, does
not refresh the list, leaves the selection `null` and shows the save error.  With note 5
selected the same service receives a create; the list is refreshed and the selection stays 5,
not the id 7 of the note the service returned. -/
theorem saveNote_accepted_write_outcome :
    (saveNote Backend.accepting).trace draftT =
      [⟨putReq "http://127.0.0.1:8000/notes/null" ⟨"T", "", ""⟩, true⟩] ∧
    (saveNote Backend.accepting).final draftT =
      { draftT with error := "Could not save note. Check backend logs / CORS." } ∧
    (saveNote Backend.accepting).trace editing5 =
      [⟨postReq "http://127.0.0.1:8000/notes" ⟨"T", "", ""⟩, true⟩,
       ⟨getReq "http://127.0.0.1:8000/notes", true⟩] ∧
    (saveNote Backend.accepting).final editing5 = { editing5 with notes := [persisted] } ∧
    persisted.id = .num "7" := by
  decide

/-- C7: when the write request of a saveNote run fails, saveNote returns without throwing; the
error message is the save error, the saving flag is false, and the draft, the selection and
the notes list are those of the state before the call. -/
theorem saveNote_write_failure (b : Backend) (c : Client)
    (h : ∃ e ∈ (saveNote b).trace c, e.isWrite = true ∧ e.ok = false) :
    (saveNote b).returns c = true ∧
    (saveNote b).final c =
      { c with error := "Could not save note. Check backend logs / CORS.", saving := false } := by
  cases ht : c.selectedId.truthy with
  | false =>
    simp [Op.returns, Op.final, Op.exec, saveNote_apply_falsy b ⟨c, []⟩ ht, saveErrorText]
  | true =>
    have hs := saveNote_apply_truthy b ⟨c, []⟩ ht
    obtain ⟨e, he, hw, hok⟩ := h
    simp only [Op.trace, Op.exec] at he
    cases hp : b.post notesUrl (draft c) with
    | none =>
      simp only [hp] at hs
      simp [Op.returns, Op.final, Op.exec, hs, saveErrorText]
    | some n =>
      exfalso
      cases hl : b.getList notesUrl with
      | none =>
        simp only [hp, hl] at hs
        simp only [hs, List.nil_append, List.mem_cons, List.mem_singleton, List.mem_nil_iff,
          or_false] at he
        rcases he with he | he
        · subst he
          simp at hok
        · subst he
          simp [Exchange.isWrite, getReq] at hw
      | some l =>
        simp only [hp, hl] at hs
        simp only [hs, List.nil_append, List.mem_cons, List.mem_singleton, List.mem_nil_iff,
          or_false] at he
        rcases he with he | he
        · subst he
          simp at hok
        · subst he
          simp at hok

theorem saveNote_write_failure_witness :
    (∃ e ∈ (saveNote Backend.offline).trace editing5, e.isWrite = true ∧ e.ok = false) ∧
    (saveNote Backend.offline).returns editing5 = true ∧
    (saveNote Backend.offline).final editing5 =
      { editing5 with error := "Could not save note. Check backend logs / CORS." } :=
  have h : ∃ e ∈ (saveNote Backend.offline).trace editing5, e.isWrite = true ∧ e.ok = false :=
    ⟨⟨postReq "http://127.0.0.1:8000/notes" ⟨"T", "", ""⟩, false⟩, by decide, rfl, rfl⟩
  ⟨h, saveNote_write_failure Backend.offline editing5 h⟩

/-! ## Failures of the remote call of the other handlers -/

/-- C8: when the remote call of fetchNotes, of loadNote or of deleteNote fails, the state after
the handler is the state before it with the error message replaced by the message of that
handler; notes, draft, selection and saving flag keep their values. -/
theorem remote_failure_only_sets_error (b : Backend) (c : Client) (id : JsId) :
    (⟨getReq notesUrl, false⟩ ∈ (fetchNotes b).trace c →
      (fetchNotes b).final c =
        { c with error := "Could not load notes. Is the backend running on :8000?" }) ∧
    (⟨getReq (noteUrl id), false⟩ ∈ (loadNote b id).trace c →
      (loadNote b id).final c = { c with error := "Could not load that note." }) ∧
    (⟨deleteReq (noteUrl id), false⟩ ∈ (deleteNote b id).trace c →
      (deleteNote b id).final c = { c with error := "Could not delete note." }) := by
  refine ⟨?_, ?_, ?_⟩
  · intro h
    have hf := fetchNotes_apply b ⟨c, []⟩
    simp only [Op.trace, Op.exec] at h
    cases hl : b.getList notesUrl with
    | none =>
      simp only [hl] at hf
      simp [Op.final, Op.exec, hf, fetchErrorText]
    | some l =>
      simp only [hl] at hf
      simp [hf] at h
  · intro h
    have hf := loadNote_apply b id ⟨c, []⟩
    simp only [Op.trace, Op.exec] at h
    cases hl : b.getNote (noteUrl id) with
    | none =>
      simp only [hl] at hf
      simp [Op.final, Op.exec, hf, loadErrorText]
    | some n =>
      simp only [hl] at hf
      simp [hf] at h
  · intro h
    simp only [Op.trace, Op.exec] at h
    cases ht : id.truthy with
    | false => simp [deleteNote_apply_falsy b id ⟨c, []⟩ ht] at h
    | true =>
      have hf := deleteNote_apply_truthy b id ⟨c, []⟩ ht
      cases hd : b.delete (noteUrl id) with
      | false =>
        simp only [hd] at hf
        simp [Op.final, Op.exec, hf, deleteErrorText]
      | true =>
        exfalso
        cases hl : b.getList notesUrl <;> simp only [hd, hl] at hf <;>
          simp [hf, deleteReq, getReq] at h

theorem remote_failure_only_sets_error_witness :
    (fetchNotes Backend.offline).final editing5 =
      { editing5 with error := "Could not load notes. Is the backend running on :8000?" } ∧
    (loadNote Backend.offline (.num "5")).final editing5 =
      { editing5 with error := "Could not load that note." } ∧
    (deleteNote Backend.offline (.num "5")).final editing5 =
      { editing5 with error := "Could not delete note." } :=
  ⟨(remote_failure_only_sets_error Backend.offline editing5 (.num "5")).1 (by decide),
   (remote_failure_only_sets_error Backend.offline editing5 (.num "5")).2.1 (by decide),
   (remote_failure_only_sets_error Backend.offline editing5 (.num "5")).2.2 (by decide)⟩

/-! ## Deleting and starting a new note -/

/-- C9, as stated, fails: the id `0` is present (it is neither `null` nor `undefined`) and the
service accepts `DELETE /notes/0`, yet deleteNote sends no request and leaves the draft and
the selection as they were instead of ending in new-note mode. -/
theorem deleteNote_zero_id_sends_nothing :
    JsId.num "0" ≠ .null ∧ JsId.num "0" ≠ .undefined ∧
    Backend.accepting.delete "http://127.0.0.1:8000/notes/0" = true ∧
    (deleteNote Backend.accepting (.num "0")).trace editing0 = [] ∧
    (deleteNote Backend.accepting (.num "0")).final editing0 = editing0 ∧
    editing0.title = "T" ∧ editing0.selectedId = .num "0" := by
  decide

/-- C9, amended: for every state and every id that passes the guard of deleteNote (a number
other than zero and not-a-number, or a string other than the empty one, `text` being its
string form), when the service accepts `DELETE /notes/text` deleteNote issues that one DELETE
for that id, then the list refresh `GET /notes`, and ends in new-note mode: title, content and
tags empty, nothing selected (the notes list is the refreshed one when the refresh succeeds).
newNote reaches the same draft and selection without any request and without touching the
notes list. -/
theorem deleteNote_success (b : Backend) (c : Client) (id : JsId) (text : String)
    (hid : (id = .num text ∧ text ≠ "0" ∧ text ≠ "NaN") ∨ (id = .str text ∧ text ≠ ""))
    (hd : b.delete ("http://127.0.0.1:8000/notes/" ++ text) = true) :
    ((deleteNote b id).returns c = true ∧
     (deleteNote b id).trace c =
       [⟨deleteReq ("http://127.0.0.1:8000/notes/" ++ text), true⟩,
        ⟨getReq "http://127.0.0.1:8000/notes",
         (b.getList "http://127.0.0.1:8000/notes").isSome⟩] ∧
     (deleteNote b id).final c =
       { c with error := "", title := "", content := "", tags := "", selectedId := .null,
                notes := (b.getList "http://127.0.0.1:8000/notes").getD c.notes }) ∧
    (newNote.returns c = true ∧ newNote.trace c = [] ∧
     newNote.final c =
       { c with error := "", title := "", content := "", tags := "", selectedId := .null }) := by
  refine ⟨?_, ?_⟩
  · have ht : id.truthy = true := (JsId.truthy_iff id).mpr ⟨text, hid⟩
    have hu : noteUrl id = "http://127.0.0.1:8000/notes/" ++ text := by
      rcases hid with ⟨h, _⟩ | ⟨h, _⟩ <;> subst h
      · exact noteUrl_num text
      · exact noteUrl_str text
    have hf := deleteNote_apply_truthy b id ⟨c, []⟩ ht
    rw [hu, notesUrl_eq] at hf
    cases hl : b.getList "http://127.0.0.1:8000/notes" <;> simp only [hd, hl] at hf <;>
      simp [Op.returns, Op.trace, Op.final, Op.exec, hf]
  · simp [Op.returns, Op.trace, Op.final, Op.exec, newNote_apply ⟨c, []⟩]

theorem deleteNote_success_witness :
    ((JsId.num "42" = .num "42" ∧ "42" ≠ "0" ∧ "42" ≠ "NaN") ∨
      (JsId.num "42" = .str "42" ∧ "42" ≠ "")) ∧
    Backend.accepting.delete ("http://127.0.0.1:8000/notes/" ++ "42") = true ∧
    (deleteNote Backend.accepting (.num "42")).trace editing5 =
      [⟨deleteReq "http://127.0.0.1:8000/notes/42", true⟩,
       ⟨getReq "http://127.0.0.1:8000/notes", true⟩] ∧
    (deleteNote Backend.accepting (.num "42")).final editing5 =
      { Client.initial with notes := [persisted] } :=
  ⟨Or.inl ⟨rfl, by decide, by decide⟩, rfl,
   (deleteNote_success Backend.accepting editing5 (.num "42") "42"
     (Or.inl ⟨rfl, by decide, by decide⟩) rfl).1.2.1,
   (deleteNote_success Backend.accepting editing5 (.num "42") "42"
     (Or.inl ⟨rfl, by decide, by decide⟩) rfl).1.2.2⟩

/-- The DELETE request is issued exactly for the ids that pass the guard `if (!id) return`. -/
theorem deleteNote_issues_delete_iff (b : Backend) (c : Client) (id : JsId) :
    (∃ e ∈ (deleteNote b id).trace c, e.request.method = .DELETE) ↔ id.truthy = true := by
  cases ht : id.truthy with
  | false => simp [Op.trace, Op.exec, deleteNote_apply_falsy b id ⟨c, []⟩ ht]
  | true =>
    have hf := deleteNote_apply_truthy b id ⟨c, []⟩ ht
    cases hd : b.delete (noteUrl id) <;> cases hl : b.getList notesUrl <;>
      simp only [hd, hl] at hf <;> simp [Op.trace, Op.exec, hf, deleteReq]

/-! ## Visibility of failures -/

/-- C10 (defect of the code): note 5 is deleted on a service that accepts the DELETE and
fails the list refresh.  deleteNote returns without throwing, a remote call of the run has
failed, and the error message is empty when it finishes: the message set by the failed
refresh is erased by the call of newNote that follows it. -/
theorem deleteNote_refresh_failure_hidden :
    (deleteNote Backend.writeOnly (.num "5")).returns editing5 = true ∧
    (deleteNote Backend.writeOnly (.num "5")).trace editing5 =
      [⟨deleteReq "http://127.0.0.1:8000/notes/5", true⟩,
       ⟨getReq "http://127.0.0.1:8000/notes", false⟩] ∧
    ((deleteNote Backend.writeOnly (.num "5")).final editing5).error = "" := by
  decide

/-- No handler lets an exception escape, whatever the state and the answers of the service. -/
theorem handlers_return (b : Backend) (c : Client) (id : JsId) :
    (fetchNotes b).returns c = true ∧ (loadNote b id).returns c = true ∧
    (saveNote b).returns c = true ∧ newNote.returns c = true ∧
    (deleteNote b id).returns c = true := by
  refine ⟨?_, ?_, ?_, ?_, ?_⟩
  · have hf := fetchNotes_apply b ⟨c, []⟩
    cases hl : b.getList notesUrl <;> simp only [hl] at hf <;>
      simp [Op.returns, Op.exec, hf]
  · have hf := loadNote_apply b id ⟨c, []⟩
    cases hl : b.getNote (noteUrl id) <;> simp only [hl] at hf <;>
      simp [Op.returns, Op.exec, hf]
  · cases ht : c.selectedId.truthy with
    | false => simp [Op.returns, Op.exec, saveNote_apply_falsy b ⟨c, []⟩ ht]
    | true =>
      have hf := saveNote_apply_truthy b ⟨c, []⟩ ht
      cases hp : b.post notesUrl (draft c) <;> cases hl : b.getList notesUrl <;>
        simp only [hp, hl] at hf <;> simp [Op.returns, Op.exec, hf]
  · simp [Op.returns, Op.exec, newNote_apply ⟨c, []⟩]
  · cases ht : id.truthy with
    | false => simp [Op.returns, Op.exec, deleteNote_apply_falsy b id ⟨c, []⟩ ht]
    | true =>
      have hf := deleteNote_apply_truthy b id ⟨c, []⟩ ht
      cases hd : b.delete (noteUrl id) <;> cases hl : b.getList notesUrl <;>
        simp only [hd, hl] at hf <;> simp [Op.returns, Op.exec, hf]

/-- For fetchNotes, loadNote and saveNote a failed remote call leaves a message on screen;
for deleteNote this holds when the failed call is the DELETE itself. -/
theorem failure_visible (b : Backend) (c : Client) (id : JsId) :
    ((∃ e ∈ (fetchNotes b).trace c, e.ok = false) → ((fetchNotes b).final c).error ≠ "") ∧
    ((∃ e ∈ (loadNote b id).trace c, e.ok = false) → ((loadNote b id).final c).error ≠ "") ∧
    ((∃ e ∈ (saveNote b).trace c, e.ok = false) → ((saveNote b).final c).error ≠ "") ∧
    (⟨deleteReq (noteUrl id), false⟩ ∈ (deleteNote b id).trace c →
      ((deleteNote b id).final c).error ≠ "") := by
  have e1 : fetchErrorText ≠ "" := by decide
  have e2 : loadErrorText ≠ "" := by decide
  have e3 : saveErrorText ≠ "" := by decide
  refine ⟨?_, ?_, ?_, ?_⟩
  · have hf := fetchNotes_apply b ⟨c, []⟩
    cases hl : b.getList notesUrl <;> simp only [hl] at hf <;>
      simp [Op.trace, Op.final, Op.exec, hf, e1]
  · have hf := loadNote_apply b id ⟨c, []⟩
    cases hl : b.getNote (noteUrl id) <;> simp only [hl] at hf <;>
      simp [Op.trace, Op.final, Op.exec, hf, e2]
  · cases ht : c.selectedId.truthy with
    | false => simp [Op.trace, Op.final, Op.exec, saveNote_apply_falsy b ⟨c, []⟩ ht, e3]
    | true =>
      have hf := saveNote_apply_truthy b ⟨c, []⟩ ht
      cases hp : b.post notesUrl (draft c) <;> cases hl : b.getList notesUrl <;>
        simp only [hp, hl] at hf <;> simp [Op.trace, Op.final, Op.exec, hf, e1, e3]
  · intro h
    have e4 : deleteErrorText ≠ "" := by decide
    simp only [Op.trace, Op.exec] at h
    cases ht : id.truthy with
    | false => simp [deleteNote_apply_falsy b id ⟨c, []⟩ ht] at h
    | true =>
      have hf := deleteNote_apply_truthy b id ⟨c, []⟩ ht
      cases hd : b.delete (noteUrl id) with
      | false =>
        simp only [hd] at hf
        simp [Op.final, Op.exec, hf, e4]
      | true =>
        exfalso
        cases hl : b.getList notesUrl <;> simp only [hd, hl] at hf <;>
          simp [hf, deleteReq, getReq] at h

end AiNotes
